import Mathlib

/- Shallow embedding of the repository sdlkhfksl/liquidation_map_bot
   (src/bot.py and src/gunicorn.conf.py).

   Pure data and control flow are translated directly from the Python source.
   The effectful collaborators (the Chrome webdriver, the CoinGecko HTTP API,
   and the Telegram transport) are modelled by explicit environment records
   stating which external step succeeds, which label the page shows, and what
   the price API answered; each embedded function returns the list of outbound
   messages produced together with a record of its side effects (files written,
   files removed, screenshots taken, which collaborators were invoked).
   A Python function that catches every exception and returns None is embedded
   as a total function returning an Option. -/

/-- Calendar date, standing for datetime.now() at the moment a strftime
format is rendered (bot.py uses only the %Y, %m, %d fields). -/
structure Date where
  year : Nat
  month : Nat
  day : Nat
  deriving DecidableEq

/-- Decimal digit character of n % 10, as rendered by Python str formatting. -/
def decDigit (n : Nat) : Char :=
  match n % 10 with
  | 0 => '0'
  | 1 => '1'
  | 2 => '2'
  | 3 => '3'
  | 4 => '4'
  | 5 => '5'
  | 6 => '6'
  | 7 => '7'
  | 8 => '8'
  | _ => '9'

/-- Two digit zero padded rendering (strftime %m, %d). -/
def pad2 (n : Nat) : String :=
  ⟨[decDigit (n / 10), decDigit n]⟩

/-- Four digit zero padded rendering (strftime %Y). -/
def pad4 (n : Nat) : String :=
  ⟨[decDigit (n / 1000), decDigit (n / 100), decDigit (n / 10), decDigit n]⟩

/-- strftime("%Y-%m-%d") of bot.py lines 247 and 283. -/
def dateDash (d : Date) : String :=
  pad4 d.year ++ "-" ++ pad2 d.month ++ "-" ++ pad2 d.day

/-- strftime("%Y%m%d") of bot.py lines 171, 182 and 192. -/
def dateCompact (d : Date) : String :=
  pad4 d.year ++ pad2 d.month ++ pad2 d.day

/-- Inserts a comma after every third character of a least significant digit
first list, as the Python format specifier "," does on the integer part. -/
def group3LSD : List Char → List Char
  | [] => []
  | [a] => [a]
  | [a, b] => [a, b]
  | [a, b, c] => [a, b, c]
  | a :: b :: c :: d :: rest => a :: b :: c :: ',' :: group3LSD (d :: rest)

/-- Python str.strip() on the character list level: leading and trailing
whitespace removed. -/
def stripChars (l : List Char) : List Char :=
  (((l.dropWhile Char.isWhitespace).reverse).dropWhile Char.isWhitespace).reverse

/-- Python str.strip() as used on the dropdown label in bot.py line 96. -/
def pyStrip (s : String) : String :=
  ⟨stripChars s.data⟩

/-- Decimal rendering of a natural number with thousands separators. -/
def commaGroup (n : Nat) : String :=
  ⟨(group3LSD (Nat.toDigits 10 n).reverse).reverse⟩

/-- The two digits after the decimal point when an exact cent amount is
rendered by the Python format specifier ".2f". -/
def fracPart2 (cents : Nat) : String :=
  ⟨[decDigit (cents % 100 / 10), decDigit (cents % 100)]⟩

/-- The f-string f"$\x7bprice:,.2f\x7d" of bot.py line 220. The JSON price
value is modelled as an exact amount of cents, so the format is rendered
exactly: dollar sign, integer part with thousands separators, a decimal
point and two decimal digits. -/
def formatUsd (cents : Nat) : String :=
  "$" ++ commaGroup (cents / 100) ++ "." ++ fracPart2 cents

/-- Outcome of the requests.get call of bot.py line 214 as seen by the code:
either the call (or .json parsing) raised, or a response arrived carrying an
HTTP status and the optional data["bitcoin"]["usd"] field (in cents; the
field is absent when either dictionary lookup of line 218 yields nothing). -/
inductive FetchOutcome where
  | raised
  | response (status : Nat) (usdCents : Option Nat)
  deriving DecidableEq

/-- get_bitcoin_price of bot.py lines 209-226. Returns the formatted price
string on a 200 response whose usd field is present and truthy (nonzero),
and None in every other case; the try/except of the source makes it total. -/
def get_bitcoin_price : FetchOutcome → Option String
  | FetchOutcome.raised => none
  | FetchOutcome.response status usd =>
    if status = 200 then
      match usd with
      | some c => if c = 0 then none else some (formatUsd c)
      | none => none
    else none

/-- Destination of an outbound Telegram call: the configured broadcast
channel (CHANNEL_ID) or the chat a command message arrived from. -/
inductive Dest where
  | channel
  | chat (id : Nat)
  deriving DecidableEq

/-- One outbound Telegram transmission that actually succeeded. -/
inductive Out where
  | text (dest : Dest) (msg : String)
  | photo (dest : Dest) (file : String) (caption : String)
  deriving DecidableEq

/-- An incoming Telegram command message. -/
structure Msg where
  chatId : Nat
  text : String
  deriving DecidableEq

/-- Environment of one capture_coinglass_heatmap run: which external step of
bot.py lines 49-207 succeeds, the label currently shown by the time period
dropdown, how many chart-like elements the fallback query finds, and the
date used in the generated file names. -/
structure CaptureEnv where
  setup_ok : Bool
  nav_ok : Bool
  dropdown_ok : Bool
  dropdown_text : String
  select_ok : Bool
  chart_css_ok : Bool
  chart_xpath_ok : Bool
  shot_ok : Bool
  page_shot_ok : Bool
  fallback_elems : Nat
  fallback_shot_ok : Bool
  capDate : Date
  deriving DecidableEq

/-- Observable outcome of one capture_coinglass_heatmap run: the returned
file name (None on failure), whether the diagnostic full page screenshot of
line 182 was taken, whether an error was logged, whether the webdriver was
quit, and which image files were written to disk. -/
structure CaptureOut where
  result : Option String
  fullPageShot : Bool
  errorLogged : Bool
  driverQuit : Bool
  filesWritten : List String
  deriving DecidableEq

/-- Temp file name of bot.py line 171:
f"btc_liquidation_heatmap_\x7bdate\x7d_\x7bperiod with spaces replaced\x7d.png". -/
def heatmapFileName (d : Date) (time_period : String) : String :=
  "btc_liquidation_heatmap_" ++ dateCompact d ++ "_" ++
    ⟨time_period.data.map (fun c => if c == ' ' then '_' else c)⟩ ++ ".png"

/-- Diagnostic file name of bot.py line 182. -/
def fallbackPageName (d : Date) : String :=
  "fallback_screenshot_" ++ dateCompact d ++ ".png"

/-- Fallback chart file name of bot.py line 192. -/
def fallbackChartName (d : Date) : String :=
  "fallback_chart_" ++ dateCompact d ++ ".png"

/-- The inner except branch of bot.py lines 177-198: log the error, save a
full page screenshot (if that save itself raises, the outer except returns
None), then try to screenshot the first chart-like element and return that
file; if no element is found or its capture fails, re-raise, so the outer
except of lines 200-204 returns None. -/
def captureFallback (e : CaptureEnv) : CaptureOut :=
  if !e.page_shot_ok then
    { result := none, fullPageShot := false, errorLogged := true,
      driverQuit := true, filesWritten := [] }
  else if e.fallback_elems != 0 && e.fallback_shot_ok then
    { result := some (fallbackChartName e.capDate), fullPageShot := true,
      errorLogged := true, driverQuit := true,
      filesWritten := [fallbackPageName e.capDate, fallbackChartName e.capDate] }
  else
    { result := none, fullPageShot := true, errorLogged := true,
      driverQuit := true,
      filesWritten := [fallbackPageName e.capDate] }

/-- capture_coinglass_heatmap of bot.py lines 49-207. The steps of the inner
try are taken in source order; the first failing step jumps to the inner
except (captureFallback). The dropdown selection of lines 96-116 is only
attempted when the stripped dropdown label differs from the requested
period. A failure of webdriver construction or navigation is caught by the
outer except, which returns None; the finally block quits the driver
whenever it was constructed. -/
def capture_coinglass_heatmap (e : CaptureEnv) (time_period : String) : CaptureOut :=
  if !e.setup_ok then
    { result := none, fullPageShot := false, errorLogged := true,
      driverQuit := false, filesWritten := [] }
  else if !e.nav_ok then
    { result := none, fullPageShot := false, errorLogged := true,
      driverQuit := true, filesWritten := [] }
  else if !e.dropdown_ok then captureFallback e
  else if pyStrip e.dropdown_text != time_period && !e.select_ok then captureFallback e
  else if !(e.chart_css_ok || e.chart_xpath_ok) then captureFallback e
  else if !e.shot_ok then captureFallback e
  else
    { result := some (heatmapFileName e.capDate time_period),
      fullPageShot := false, errorLogged := false, driverQuit := true,
      filesWritten := [heatmapFileName e.capDate time_period] }

/-- True when every step of the inner chart-capture try of bot.py lines
88-175 succeeds for the given period. -/
def innerCaptureOk (e : CaptureEnv) (time_period : String) : Bool :=
  e.dropdown_ok && (pyStrip e.dropdown_text == time_period || e.select_ok) &&
    (e.chart_css_ok || e.chart_xpath_ok) && e.shot_ok

/-- The default value of the time_period parameter of
capture_coinglass_heatmap (bot.py line 49); both callers rely on it. -/
def defaultTimePeriod : String := "1 month"

/-- Environment of one delivery request: the capture environment, the price
API outcome, whether the Telegram photo send and text sends succeed, and
the date rendered into the caption. -/
structure BotEnv where
  cap : CaptureEnv
  fetch : FetchOutcome
  photoOk : Bool
  sendTextOk : Bool
  today : Date
  deriving DecidableEq

/-- Observable outcome of one delivery request: the outbound messages that
were transmitted, the files removed by os.remove, the period the acquirer
was invoked with (None when it was never invoked), and whether the price
lookup ran, a caption was composed, or an error was logged. -/
structure SendResult where
  outs : List Out
  removed : List String
  acquirerPeriod : Option String
  priceInvoked : Bool
  captionBuilt : Bool
  errorLogged : Bool
  deriving DecidableEq

/-- Telegram text of bot.py line 270. -/
def ackText : String := "Fetching the latest Bitcoin liquidation heatmap..."

/-- Telegram text of bot.py line 238. -/
def captureFailText : String := "Failed to capture today\x27s Bitcoin liquidation heatmap."

/-- Telegram text of bot.py line 275. -/
def apologyText : String := "Sorry, I couldn\x27t fetch the heatmap at this time."

/-- Telegram text of bot.py line 260. -/
def sendErrText : String := "Error sending today\x27s Bitcoin liquidation heatmap. Will try again tomorrow."

/-- Telegram text of bot.py line 293. -/
def manualErrText : String := "An error occurred while fetching the heatmap."

/-- Caption title of bot.py line 247. -/
def monthlyTitle : String := "Monthly Bitcoin Liquidation Heatmap"

/-- Caption title of bot.py line 283. -/
def manualTitle : String := "Bitcoin Liquidation Heatmap"

/-- price_text of bot.py lines 243 and 280: "BTC Price: ..." when btc_price
is truthy (a non empty string), empty otherwise. -/
def priceTextOf : Option String → String
  | none => ""
  | some s => if s = "" then "" else "BTC Price: " ++ s

/-- Caption construction of bot.py lines 247-249 and 283-285: the emoji
title line with the dashed date, plus a money bag price line appended
exactly when price_text is truthy (non empty). -/
def buildCaption (title : String) (dateStr : String) (ptext : String) : String :=
  let c := "📊 " ++ title ++ " - " ++ dateStr ++ "\n"
  if ptext = "" then c else c ++ "💰 " ++ ptext ++ "\n"

/-- send_Monthly_heatmap of bot.py lines 228-262. Captures with the default
period; on capture failure sends one failure text to the channel and
returns; otherwise looks the price up, composes the caption, and sends the
photo; os.remove runs only after a successful send_photo, and a raising
send_photo diverts to the outer except, which sends the error notice (and
swallows a failure of even that send). -/
def send_Monthly_heatmap (env : BotEnv) : SendResult :=
  match (capture_coinglass_heatmap env.cap defaultTimePeriod).result with
  | none =>
    if env.sendTextOk then
      { outs := [Out.text Dest.channel captureFailText], removed := [],
        acquirerPeriod := some defaultTimePeriod, priceInvoked := false,
        captionBuilt := false, errorLogged := true }
    else
      { outs := [], removed := [], acquirerPeriod := some defaultTimePeriod,
        priceInvoked := false, captionBuilt := false, errorLogged := true }
  | some f =>
    let caption := buildCaption monthlyTitle (dateDash env.today)
      (priceTextOf (get_bitcoin_price env.fetch))
    if env.photoOk then
      { outs := [Out.photo Dest.channel f caption], removed := [f],
        acquirerPeriod := some defaultTimePeriod, priceInvoked := true,
        captionBuilt := true, errorLogged := false }
    else if env.sendTextOk then
      { outs := [Out.text Dest.channel sendErrText], removed := [],
        acquirerPeriod := some defaultTimePeriod, priceInvoked := true,
        captionBuilt := true, errorLogged := true }
    else
      { outs := [], removed := [], acquirerPeriod := some defaultTimePeriod,
        priceInvoked := true, captionBuilt := true, errorLogged := true }

/-- handle_manual_heatmap of bot.py lines 267-293. The acknowledgment reply
of line 270 precedes the try block, so it is sent on every invocation (if
that very reply raises, the handler aborts before acquiring). The message
text is never inspected: the capture always runs with the default period.
On capture failure the handler replies the apology; on a raising send_photo
the except of lines 291-293 replies the error notice; os.remove runs only
after a successful send_photo. -/
def handle_manual_heatmap (env : BotEnv) (msg : Msg) : SendResult :=
  if !env.sendTextOk then
    { outs := [], removed := [], acquirerPeriod := none,
      priceInvoked := false, captionBuilt := false, errorLogged := false }
  else
    match (capture_coinglass_heatmap env.cap defaultTimePeriod).result with
    | none =>
      { outs := [Out.text (Dest.chat msg.chatId) ackText,
                 Out.text (Dest.chat msg.chatId) apologyText],
        removed := [], acquirerPeriod := some defaultTimePeriod,
        priceInvoked := false, captionBuilt := false, errorLogged := false }
    | some f =>
      let caption := buildCaption manualTitle (dateDash env.today)
        (priceTextOf (get_bitcoin_price env.fetch))
      if env.photoOk then
        { outs := [Out.text (Dest.chat msg.chatId) ackText,
                   Out.photo (Dest.chat msg.chatId) f caption],
          removed := [f], acquirerPeriod := some defaultTimePeriod,
          priceInvoked := true, captionBuilt := true, errorLogged := false }
      else
        { outs := [Out.text (Dest.chat msg.chatId) ackText,
                   Out.text (Dest.chat msg.chatId) manualErrText],
          removed := [], acquirerPeriod := some defaultTimePeriod,
          priceInvoked := true, captionBuilt := true, errorLogged := true }

/-- A schedule registration as the schedule library receives it: either a
daily job at a fixed wall clock time, or an every-N-hours interval job. -/
inductive ScheduleSpec where
  | dailyAt (t : String)
  | everyHours (h : Nat)
  deriving DecidableEq

/-- One step of the straight line body of main (bot.py lines 295-312). -/
inductive MainAct where
  | register (s : ScheduleSpec)
  | runScheduledDelivery
  | startPollingThread
  | enterSchedulerLoop
  deriving DecidableEq

/-- The body of main in source order: register the daily 08:00 job, run one
immediate send_Monthly_heatmap, start the polling thread, then enter the
run_pending loop (the first point at which a schedule tick can fire). -/
def mainActs : List MainAct :=
  [MainAct.register (ScheduleSpec.dailyAt "08:00"),
   MainAct.runScheduledDelivery,
   MainAct.startPollingThread,
   MainAct.enterSchedulerLoop]

/-- All schedule registrations performed by main. -/
def registeredSchedules : List ScheduleSpec :=
  mainActs.filterMap (fun a =>
    match a with
    | MainAct.register s => some s
    | _ => none)

/-- True on the interval-of-hours kind of schedule registration. -/
def isHourlyInterval : ScheduleSpec → Bool
  | ScheduleSpec.everyHours _ => true
  | ScheduleSpec.dailyAt _ => false

/-- True on the immediate delivery step of main. -/
def isRunAct : MainAct → Bool
  | MainAct.runScheduledDelivery => true
  | _ => false

/-- True on the scheduler loop entry step of main. -/
def isLoopAct : MainAct → Bool
  | MainAct.enterSchedulerLoop => true
  | _ => false

/-- Destination of an outbound transmission. -/
def outDest : Out → Dest
  | Out.text d _ => d
  | Out.photo d _ _ => d

/-- Number of photo transmissions in an outbound list. -/
def countPhotos (l : List Out) : Nat :=
  l.countP (fun o =>
    match o with
    | Out.photo _ _ _ => true
    | _ => false)

/-- Number of text transmissions in an outbound list. -/
def countTexts (l : List Out) : Nat :=
  l.countP (fun o =>
    match o with
    | Out.text _ _ => true
    | _ => false)

/-- A caption carries a price line exactly when the money bag character
introduced by bot.py lines 249 and 285 occurs in it. -/
def hasPriceLine (s : String) : Bool :=
  s.data.any (fun c => c == '💰')

/-- Bool valued infix test on character lists. -/
def listInfixAux (pat : List Char) : List Char → Bool
  | [] => pat.isEmpty
  | c :: rest => pat.isPrefixOf (c :: rest) || listInfixAux pat rest

/-- Bool valued substring test. -/
def strContains (s pat : String) : Bool :=
  listInfixAux pat.data s.data

/-- Modelled from the spec: the TimePeriod allow-list of spec section 4.1,
absent from bot.py, used only to state the claims that refer to it. -/
def specTimePeriods : List String :=
  ["24 hour", "12 hour", "4 hour", "1 hour", "1 week", "1 month", "3 month"]

/-- Splits a character list on single spaces. -/
def splitOnSpace : List Char → List (List Char)
  | [] => [[]]
  | c :: rest =>
    let r := splitOnSpace rest
    if c == ' ' then [] :: r
    else
      match r with
      | [] => [[c]]
      | w :: ws => (c :: w) :: ws

/-- Joins word character lists with single spaces. -/
def joinSpace : List (List Char) → List Char
  | [] => []
  | [w] => w
  | w :: ws => w ++ ' ' :: joinSpace ws

/-- Modelled from the spec: the trailing words of a command, joined with
single spaces, as the interactive command of spec section 6 would parse
them; bot.py performs no such parsing. -/
def specTrailingArg (text : String) : String :=
  ⟨joinSpace ((splitOnSpace text.data).drop 1)⟩

/-- The user defined top level names of the bot module (imports, module
globals and function definitions of bot.py); start_background_tasks is not
among them. -/
def botModuleAttrs : List String :=
  ["os", "logging", "requests", "time", "datetime", "schedule", "Image",
   "BytesIO", "webdriver", "Options", "By", "WebDriverWait", "EC", "telebot",
   "base64", "load_dotenv", "logger", "TOKEN", "CHANNEL_ID", "bot",
   "setup_webdriver", "capture_coinglass_heatmap", "get_bitcoin_price",
   "send_Monthly_heatmap", "handle_start", "handle_manual_heatmap", "main"]

/-- Python attribute lookup on the bot module. -/
def getattr_bot (name : String) : Except String Unit :=
  if botModuleAttrs.contains name then Except.ok ()
  else Except.error ("AttributeError: module bot has no attribute " ++ name)

/-- Outcome of the gunicorn post_fork hook: how the bot.start_background_tasks
call ended, and whether the background scheduler and polling threads were
started through this entry path. -/
structure PostForkResult where
  outcome : Except String Unit
  backgroundTasksStarted : Bool

/-- post_fork of src/gunicorn.conf.py lines 28-34: logs, then calls
bot.start_background_tasks(); the attribute lookup happens first, and only
a successful lookup could start the background tasks. -/
def post_fork : PostForkResult :=
  match getattr_bot "start_background_tasks" with
  | Except.ok _ => { outcome := Except.ok (), backgroundTasksStarted := true }
  | Except.error e => { outcome := Except.error e, backgroundTasksStarted := false }

/-- Concrete date used by the concrete evaluation environments. -/
def d0 : Date := ⟨2026, 10, 12⟩

/-- Capture environment in which every external step succeeds and the
dropdown already shows the default period. -/
def capOk : CaptureEnv :=
  { setup_ok := true, nav_ok := true, dropdown_ok := true,
    dropdown_text := "1 month", select_ok := true, chart_css_ok := true,
    chart_xpath_ok := true, shot_ok := true, page_shot_ok := true,
    fallback_elems := 0, fallback_shot_ok := false, capDate := d0 }

/-- Capture environment in which the dropdown selector is never found and
the fallback element query finds nothing, so the run fails. -/
def capFail : CaptureEnv :=
  { capOk with dropdown_ok := false }

/-- Capture environment in which the dropdown selector is never found but
the fallback element query finds one chart-like element and captures it. -/
def capFallbackImg : CaptureEnv :=
  { capOk with dropdown_ok := false, fallback_elems := 1, fallback_shot_ok := true }

/-- Delivery environment: capture succeeds, the price API request raises,
both Telegram sends work. -/
def envDeliverNoPrice : BotEnv :=
  { cap := capOk, fetch := FetchOutcome.raised, photoOk := true,
    sendTextOk := true, today := d0 }

/-- Delivery environment: capture fails, Telegram text sends work. -/
def envAcqFail : BotEnv :=
  { cap := capFail, fetch := FetchOutcome.raised, photoOk := true,
    sendTextOk := true, today := d0 }

/-- Delivery environment: capture succeeds, the photo send raises, text
sends work. -/
def envPhotoRaise : BotEnv :=
  { cap := capOk, fetch := FetchOutcome.raised, photoOk := false,
    sendTextOk := true, today := d0 }

/-- Delivery environment: capture succeeds, the price API answers 200 with
a nonzero price, all sends work. -/
def envDeliverPrice : BotEnv :=
  { cap := capOk, fetch := FetchOutcome.response 200 (some 6712345),
    photoOk := true, sendTextOk := true, today := d0 }

/-- A heatmap command message carrying an argument outside the allow-list. -/
def msgInvalid : Msg := ⟨42, "/heatmap banana"⟩

/-- A heatmap command message carrying an argument inside the allow-list. -/
def msgValid : Msg := ⟨42, "/heatmap 1 month"⟩

theorem data_mk (l : List Char) : (String.mk l).data = l := rfl

theorem data_empty : ("" : String).data = [] := rfl

theorem decDigit_not_mb (n : Nat) : (decDigit n == '💰') = false := by
  unfold decDigit
  split <;> decide

theorem decDigit_not_dot (n : Nat) : (decDigit n == '.') = false := by
  unfold decDigit
  split <;> decide

theorem hasPriceLine_append (s t : String) :
    hasPriceLine (s ++ t) = (hasPriceLine s || hasPriceLine t) := by
  simp [hasPriceLine]

theorem hasPriceLine_pad2 (n : Nat) : hasPriceLine (pad2 n) = false := by
  simp [hasPriceLine, pad2, data_mk, decDigit_not_mb]

theorem hasPriceLine_pad4 (n : Nat) : hasPriceLine (pad4 n) = false := by
  simp [hasPriceLine, pad4, data_mk, decDigit_not_mb]

theorem hasPriceLine_dateDash (d : Date) : hasPriceLine (dateDash d) = false := by
  simp [dateDash, hasPriceLine_append, hasPriceLine_pad2, hasPriceLine_pad4]
  decide

theorem append_left_ne_empty (a b : String) (h : ¬ a.data = []) : ¬ (a ++ b) = "" := by
  intro he
  apply h
  have hd : (a ++ b).data = ("" : String).data := by rw [he]
  rw [String.data_append, data_empty] at hd
  exact (List.append_eq_nil.mp hd).1

theorem formatUsd_data (c : Nat) : (formatUsd c).data =
    '$' :: ((commaGroup (c / 100)).data ++
      '.' :: [decDigit (c % 100 / 10), decDigit (c % 100)]) := by
  simp [formatUsd, fracPart2, String.data_append, data_mk]

theorem formatUsd_ne_empty (c : Nat) : ¬ formatUsd c = "" := by
  intro h
  have hd := formatUsd_data c
  rw [h, data_empty] at hd
  exact List.noConfusion hd

theorem formatUsd_head (c : Nat) : (formatUsd c).data.head? = some '$' := by
  rw [formatUsd_data]
  rfl

theorem formatUsd_twoDecimals (c : Nat) :
    ((formatUsd c).data.reverse.takeWhile (fun ch => !(ch == '.'))).length = 2 := by
  rw [formatUsd_data]
  simp [List.takeWhile_cons, decDigit_not_dot]

theorem gbp_some (o : FetchOutcome) (s : String)
    (h : get_bitcoin_price o = some s) : ∃ c : Nat, 0 < c ∧ s = formatUsd c := by
  cases o with
  | raised => simp [get_bitcoin_price] at h
  | response st usd =>
    cases usd with
    | none => simp [get_bitcoin_price] at h
    | some c =>
      by_cases h200 : st = 200
      · by_cases hc : c = 0
        · simp [get_bitcoin_price, h200, hc] at h
        · simp [get_bitcoin_price, h200, hc] at h
          exact ⟨c, Nat.pos_of_ne_zero hc, h.symm⟩
      · simp [get_bitcoin_price, h200] at h

theorem priceTextOf_some (s : String) (h : ¬ s = "") :
    priceTextOf (some s) = "BTC Price: " ++ s := by
  simp [priceTextOf, h]

theorem buildCaption_nop (t ds : String) :
    buildCaption t ds "" = "📊 " ++ t ++ " - " ++ ds ++ "\n" := by
  simp [buildCaption]

theorem buildCaption_pos (t ds p : String) (h : ¬ p = "") :
    buildCaption t ds p = ("📊 " ++ t ++ " - " ++ ds ++ "\n") ++ "💰 " ++ p ++ "\n" := by
  simp [buildCaption, h]

theorem hasPriceLine_base (t : String) (ht : hasPriceLine t = false) (d : Date) :
    hasPriceLine ("📊 " ++ t ++ " - " ++ dateDash d ++ "\n") = false := by
  simp [hasPriceLine_append, ht, hasPriceLine_dateDash]
  decide

theorem hasPriceLine_capPos (t ds p : String) (h : ¬ p = "") :
    hasPriceLine (buildCaption t ds p) = true := by
  rw [buildCaption_pos t ds p h]
  have hmb : hasPriceLine "💰 " = true := by decide
  simp [hasPriceLine_append, hmb]

theorem capture_success (e : CaptureEnv) (tp : String)
    (hs : e.setup_ok = true) (hn : e.nav_ok = true)
    (hok : innerCaptureOk e tp = true) :
    capture_coinglass_heatmap e tp =
      { result := some (heatmapFileName e.capDate tp), fullPageShot := false,
        errorLogged := false, driverQuit := true,
        filesWritten := [heatmapFileName e.capDate tp] } := by
  unfold innerCaptureOk at hok
  simp only [Bool.and_eq_true, Bool.or_eq_true] at hok
  obtain ⟨⟨⟨h1, h2⟩, h3⟩, h4⟩ := hok
  rcases h2 with h2 | h2 <;> rcases h3 with h3 | h3 <;>
    simp [capture_coinglass_heatmap, hs, hn, h1, h2, h3, h4, bne]

theorem capture_inner_fail (e : CaptureEnv) (tp : String)
    (hs : e.setup_ok = true) (hn : e.nav_ok = true)
    (hbad : innerCaptureOk e tp = false) :
    capture_coinglass_heatmap e tp = captureFallback e := by
  cases h1 : e.dropdown_ok <;> cases h4 : e.shot_ok <;>
    cases h2 : (pyStrip e.dropdown_text == tp) <;> cases h5 : e.select_ok <;>
    cases h3 : e.chart_css_ok <;> cases h6 : e.chart_xpath_ok <;>
    simp_all [capture_coinglass_heatmap, innerCaptureOk, bne]

theorem captureFallback_noshot (e : CaptureEnv) (h : e.page_shot_ok = false) :
    captureFallback e =
      { result := none, fullPageShot := false, errorLogged := true,
        driverQuit := true, filesWritten := [] } := by
  simp [captureFallback, h]

theorem captureFallback_img (e : CaptureEnv) (h : e.page_shot_ok = true)
    (h1 : ¬ e.fallback_elems = 0) (h2 : e.fallback_shot_ok = true) :
    captureFallback e =
      { result := some (fallbackChartName e.capDate), fullPageShot := true,
        errorLogged := true, driverQuit := true,
        filesWritten := [fallbackPageName e.capDate, fallbackChartName e.capDate] } := by
  simp [captureFallback, h, h2, bne_iff_ne, h1]

theorem captureFallback_fail (e : CaptureEnv) (h : e.page_shot_ok = true)
    (h12 : e.fallback_elems = 0 ∨ e.fallback_shot_ok = false) :
    captureFallback e =
      { result := none, fullPageShot := true, errorLogged := true,
        driverQuit := true, filesWritten := [fallbackPageName e.capDate] } := by
  rcases h12 with h1 | h1 <;> simp_all [captureFallback]

theorem capture_quits (e : CaptureEnv) (tp : String) (hs : e.setup_ok = true) :
    (capture_coinglass_heatmap e tp).driverQuit = true := by
  unfold capture_coinglass_heatmap captureFallback
  simp only [hs, Bool.not_true, if_false, Bool.false_eq_true]
  repeat' split
  all_goals rfl

/-- C6 counterexample: a successful fetch (HTTP 200, price field present)
whose price value is 0 yields absence instead of the formatted string
"$0.00" the claim promises for successful fetches. -/
theorem c6_counterexample :
    get_bitcoin_price (FetchOutcome.response 200 (some 0)) = none ∧
    (get_bitcoin_price (FetchOutcome.response 200 (some 0))).isSome = false :=
  ⟨rfl, rfl⟩

/-- C6 (amended): Price Lookup returns None on a raised request, a non-200
response, a missing price field, or a zero price value; on a 200 response
with a present nonzero price it returns the formatted string, which starts
with the dollar sign, is built with thousands separators, and carries
exactly two digits after the final decimal point. It never raises: the
embedded function is total. -/
theorem c6_price_lookup :
    get_bitcoin_price FetchOutcome.raised = none ∧
    (∀ st : Nat, ∀ usd : Option Nat, ¬ st = 200 →
      get_bitcoin_price (FetchOutcome.response st usd) = none) ∧
    (∀ st : Nat, get_bitcoin_price (FetchOutcome.response st none) = none) ∧
    get_bitcoin_price (FetchOutcome.response 200 (some 0)) = none ∧
    (∀ c : Nat, 0 < c →
      get_bitcoin_price (FetchOutcome.response 200 (some c)) = some (formatUsd c) ∧
      (formatUsd c).data.head? = some '$' ∧
      ((formatUsd c).data.reverse.takeWhile (fun ch => !(ch == '.'))).length = 2) := by
  refine ⟨rfl, ?_, ?_, rfl, ?_⟩
  · intro st usd h
    simp [get_bitcoin_price, h]
  · intro st
    by_cases h200 : st = 200 <;> simp [get_bitcoin_price, h200]
  · intro c hc
    refine ⟨?_, formatUsd_head c, formatUsd_twoDecimals c⟩
    simp [get_bitcoin_price, Nat.pos_iff_ne_zero.mp hc]

/-- C6 witness: the amended theorem evaluated at a 200 response carrying
67123.45 dollars in cents. -/
theorem c6_price_lookup_witness :
    0 < 6712345 ∧
    get_bitcoin_price (FetchOutcome.response 200 (some 6712345)) =
      some (formatUsd 6712345) ∧
    formatUsd 6712345 = "$67,123.45" :=
  ⟨by decide, (c6_price_lookup.2.2.2.2 6712345 (by decide)).1, by decide⟩

/-- C10: a 200 response whose price field holds 0 produces the same absence
value as a raised fetch, not a formatted zero price, because the source
tests the field by truthiness. -/
theorem c10_zero_price_absent :
    get_bitcoin_price (FetchOutcome.response 200 (some 0)) = none ∧
    get_bitcoin_price (FetchOutcome.response 200 (some 0)) =
      get_bitcoin_price FetchOutcome.raised ∧
    (get_bitcoin_price (FetchOutcome.response 200 (some 0))).isSome = false :=
  ⟨rfl, rfl, rfl⟩

/-- C9: the bot module defines no attribute start_background_tasks, so the
gunicorn post_fork hook ends in an AttributeError and never starts the
scheduler or polling threads through this entry path. -/
theorem c9_post_fork_attribute_error :
    botModuleAttrs.contains "start_background_tasks" = false ∧
    post_fork.outcome = Except.error
      "AttributeError: module bot has no attribute start_background_tasks" ∧
    post_fork.backgroundTasksStarted = false :=
  ⟨by decide, rfl, rfl⟩

/-- C1 counterexample: the trailing words of "/heatmap banana" join to
"banana", which is outside the allow-list, yet the handler still invokes
the acquirer (with the hard coded default period) and even delivers a
photo, instead of rejecting with the list of valid TimePeriods. -/
theorem c1_counterexample :
    specTrailingArg msgInvalid.text = "banana" ∧
    specTimePeriods.contains "banana" = false ∧
    (handle_manual_heatmap envDeliverNoPrice msgInvalid).acquirerPeriod =
      some defaultTimePeriod ∧
    countPhotos (handle_manual_heatmap envDeliverNoPrice msgInvalid).outs = 1 :=
  ⟨by decide, by decide, by decide, by decide⟩

/-- C1 (amended): the interactive heatmap handler never parses or validates
its trailing words: whenever the acknowledgment reply goes through, the
first outbound message is the acknowledgment and the acquirer is invoked
with the hard coded default TimePeriod "1 month", whatever the message
text says. -/
theorem c1_manual_ignores_argument (env : BotEnv) (msg : Msg)
    (htext : env.sendTextOk = true) :
    (handle_manual_heatmap env msg).acquirerPeriod = some defaultTimePeriod ∧
    (handle_manual_heatmap env msg).outs.head? =
      some (Out.text (Dest.chat msg.chatId) ackText) := by
  cases hcr : (capture_coinglass_heatmap env.cap defaultTimePeriod).result with
  | none => simp [handle_manual_heatmap, hcr, htext]
  | some f =>
    by_cases hp : env.photoOk <;> simp [handle_manual_heatmap, hcr, htext, hp]

/-- C1 witness: the amended theorem evaluated on a message carrying an
argument outside the allow-list. -/
theorem c1_manual_ignores_argument_witness :
    envDeliverNoPrice.sendTextOk = true ∧
    (handle_manual_heatmap envDeliverNoPrice msgInvalid).acquirerPeriod =
      some defaultTimePeriod :=
  ⟨rfl, (c1_manual_ignores_argument envDeliverNoPrice msgInvalid rfl).1⟩

/-- C2 counterexample: when the dropdown selector step fails but the
fallback element query finds a chart-like element, the acquirer returns a
fallback image file to its caller instead of the failure signal the claim
prescribes for every step failure. -/
theorem c2_counterexample :
    capFallbackImg.dropdown_ok = false ∧
    (capture_coinglass_heatmap capFallbackImg defaultTimePeriod).result =
      some "fallback_chart_20261012.png" ∧
    (capture_coinglass_heatmap capFallbackImg defaultTimePeriod).result.isSome = true :=
  ⟨rfl, by decide, by decide⟩

/-- C2 (amended): the acquirer is total (the outer except turns any error
into the failure signal None, never an exception). When the inner capture
sequence succeeds it returns the heatmap file with no error logged; when a
chart-capture step fails it logs the error and, if the diagnostic full page
screenshot itself fails, returns None; otherwise it takes the full page
screenshot and then returns a best-effort fallback chart image when one
chart-like element is found and captured, and None when the fallback also
yields nothing. The webdriver is quit on every exit path on which it was
constructed. -/
theorem c2_acquirer_fallback (e : CaptureEnv) (tp : String)
    (hs : e.setup_ok = true) (hn : e.nav_ok = true) :
    (innerCaptureOk e tp = true →
      (capture_coinglass_heatmap e tp).result = some (heatmapFileName e.capDate tp) ∧
      (capture_coinglass_heatmap e tp).errorLogged = false) ∧
    (innerCaptureOk e tp = false →
      (capture_coinglass_heatmap e tp).errorLogged = true ∧
      (e.page_shot_ok = false → (capture_coinglass_heatmap e tp).result = none) ∧
      (e.page_shot_ok = true →
        (capture_coinglass_heatmap e tp).fullPageShot = true ∧
        (¬ e.fallback_elems = 0 → e.fallback_shot_ok = true →
          (capture_coinglass_heatmap e tp).result = some (fallbackChartName e.capDate)) ∧
        ((e.fallback_elems = 0 ∨ e.fallback_shot_ok = false) →
          (capture_coinglass_heatmap e tp).result = none))) ∧
    (capture_coinglass_heatmap e tp).driverQuit = true := by
  refine ⟨?_, ?_, capture_quits e tp hs⟩
  · intro hok
    rw [capture_success e tp hs hn hok]
    exact ⟨rfl, rfl⟩
  · intro hbad
    rw [capture_inner_fail e tp hs hn hbad]
    refine ⟨?_, ?_, ?_⟩
    · unfold captureFallback
      repeat' split
      all_goals rfl
    · intro hps
      rw [captureFallback_noshot e hps]
    · intro hps
      refine ⟨?_, ?_, ?_⟩
      · by_cases hfe : e.fallback_elems = 0
        · rw [captureFallback_fail e hps (Or.inl hfe)]
        · cases hfs : e.fallback_shot_ok with
          | false => rw [captureFallback_fail e hps (Or.inr hfs)]
          | true => rw [captureFallback_img e hps hfe hfs]
      · intro hfe hfs
        rw [captureFallback_img e hps hfe hfs]
      · intro h12
        rw [captureFallback_fail e hps h12]

/-- C2 witness: the amended theorem evaluated on the environment where the
dropdown step fails and the fallback element capture succeeds. -/
theorem c2_acquirer_fallback_witness :
    capFallbackImg.setup_ok = true ∧ capFallbackImg.nav_ok = true ∧
    innerCaptureOk capFallbackImg defaultTimePeriod = false ∧
    capFallbackImg.page_shot_ok = true ∧
    (capture_coinglass_heatmap capFallbackImg defaultTimePeriod).fullPageShot = true :=
  ⟨rfl, rfl, by decide, rfl,
    (((c2_acquirer_fallback capFallbackImg defaultTimePeriod rfl rfl).2.1
      (by decide)).2.2 rfl).1⟩

/-- C3 counterexample: an interactive request whose acquisition fails sends
two outbound text messages (the unconditional acknowledgment and the
apology), not exactly one as the claim states. -/
theorem c3_counterexample :
    (capture_coinglass_heatmap envAcqFail.cap defaultTimePeriod).result = none ∧
    countTexts (handle_manual_heatmap envAcqFail msgValid).outs = 2 ∧
    countPhotos (handle_manual_heatmap envAcqFail msgValid).outs = 0 :=
  ⟨by decide, by decide, by decide⟩

/-- C3 (amended): when the acquirer returns failure and text sends work,
zero photos are sent and neither Price Lookup nor caption composition is
invoked; the scheduled path sends exactly one text (the failure notice) to
the channel, while the interactive path sends exactly two texts to the
requesting chat: the pre-acquisition acknowledgment and the apology. -/
theorem c3_failure_messaging (env : BotEnv) (msg : Msg)
    (hcap : (capture_coinglass_heatmap env.cap defaultTimePeriod).result = none)
    (htext : env.sendTextOk = true) :
    send_Monthly_heatmap env =
      { outs := [Out.text Dest.channel captureFailText], removed := [],
        acquirerPeriod := some defaultTimePeriod, priceInvoked := false,
        captionBuilt := false, errorLogged := true } ∧
    handle_manual_heatmap env msg =
      { outs := [Out.text (Dest.chat msg.chatId) ackText,
                 Out.text (Dest.chat msg.chatId) apologyText],
        removed := [], acquirerPeriod := some defaultTimePeriod,
        priceInvoked := false, captionBuilt := false, errorLogged := false } ∧
    countTexts (send_Monthly_heatmap env).outs = 1 ∧
    countPhotos (send_Monthly_heatmap env).outs = 0 ∧
    countTexts (handle_manual_heatmap env msg).outs = 2 ∧
    countPhotos (handle_manual_heatmap env msg).outs = 0 := by
  have hm : send_Monthly_heatmap env =
      { outs := [Out.text Dest.channel captureFailText], removed := [],
        acquirerPeriod := some defaultTimePeriod, priceInvoked := false,
        captionBuilt := false, errorLogged := true } := by
    simp [send_Monthly_heatmap, hcap, htext]
  have hh : handle_manual_heatmap env msg =
      { outs := [Out.text (Dest.chat msg.chatId) ackText,
                 Out.text (Dest.chat msg.chatId) apologyText],
        removed := [], acquirerPeriod := some defaultTimePeriod,
        priceInvoked := false, captionBuilt := false, errorLogged := false } := by
    simp [handle_manual_heatmap, hcap, htext]
  refine ⟨hm, hh, ?_, ?_, ?_, ?_⟩ <;> first
    | (rw [hm]; rfl)
    | (rw [hh]; rfl)

/-- C3 witness: the amended theorem evaluated on the failing-capture
environment. -/
theorem c3_failure_messaging_witness :
    (capture_coinglass_heatmap envAcqFail.cap defaultTimePeriod).result = none ∧
    envAcqFail.sendTextOk = true ∧
    countTexts (send_Monthly_heatmap envAcqFail).outs = 1 :=
  ⟨by decide, rfl,
    (c3_failure_messaging envAcqFail msgValid (by decide) rfl).2.2.1⟩

/-- C4: at the failing input where acquisition succeeds and send_photo
raises, the temp heatmap file was written by the capture, the request ends
Failed (no photo, only the error notice text), and the removed list is
empty: os.remove is skipped because it sits after send_photo inside the
try, so the temp file survives the Failed exit path. -/
theorem c4_temp_file_leak :
    (capture_coinglass_heatmap envPhotoRaise.cap defaultTimePeriod).result =
      some "btc_liquidation_heatmap_20261012_1_month.png" ∧
    "btc_liquidation_heatmap_20261012_1_month.png" ∈
      (capture_coinglass_heatmap envPhotoRaise.cap defaultTimePeriod).filesWritten ∧
    (send_Monthly_heatmap envPhotoRaise).outs = [Out.text Dest.channel sendErrText] ∧
    countPhotos (send_Monthly_heatmap envPhotoRaise).outs = 0 ∧
    (send_Monthly_heatmap envPhotoRaise).removed = [] :=
  ⟨by decide, by decide, by decide, by decide, by decide⟩

/-- C7: when acquisition succeeds, Price Lookup returns absence, and the
transports work, both the scheduled and the interactive path still deliver
exactly one photo, and its caption is the bare title and date line with no
price line in it. -/
theorem c7_absent_price_still_delivers (env : BotEnv) (msg : Msg) (f : String)
    (hcap : (capture_coinglass_heatmap env.cap defaultTimePeriod).result = some f)
    (hprice : get_bitcoin_price env.fetch = none)
    (hphoto : env.photoOk = true) (htext : env.sendTextOk = true) :
    send_Monthly_heatmap env =
      { outs := [Out.photo Dest.channel f
          ("📊 " ++ monthlyTitle ++ " - " ++ dateDash env.today ++ "\n")],
        removed := [f], acquirerPeriod := some defaultTimePeriod,
        priceInvoked := true, captionBuilt := true, errorLogged := false } ∧
    handle_manual_heatmap env msg =
      { outs := [Out.text (Dest.chat msg.chatId) ackText,
                 Out.photo (Dest.chat msg.chatId) f
                   ("📊 " ++ manualTitle ++ " - " ++ dateDash env.today ++ "\n")],
        removed := [f], acquirerPeriod := some defaultTimePeriod,
        priceInvoked := true, captionBuilt := true, errorLogged := false } ∧
    countPhotos (send_Monthly_heatmap env).outs = 1 ∧
    countPhotos (handle_manual_heatmap env msg).outs = 1 ∧
    hasPriceLine ("📊 " ++ monthlyTitle ++ " - " ++ dateDash env.today ++ "\n") = false ∧
    hasPriceLine ("📊 " ++ manualTitle ++ " - " ++ dateDash env.today ++ "\n") = false := by
  have hm : send_Monthly_heatmap env =
      { outs := [Out.photo Dest.channel f
          ("📊 " ++ monthlyTitle ++ " - " ++ dateDash env.today ++ "\n")],
        removed := [f], acquirerPeriod := some defaultTimePeriod,
        priceInvoked := true, captionBuilt := true, errorLogged := false } := by
    simp [send_Monthly_heatmap, hcap, hphoto, hprice, priceTextOf, buildCaption]
  have hh : handle_manual_heatmap env msg =
      { outs := [Out.text (Dest.chat msg.chatId) ackText,
                 Out.photo (Dest.chat msg.chatId) f
                   ("📊 " ++ manualTitle ++ " - " ++ dateDash env.today ++ "\n")],
        removed := [f], acquirerPeriod := some defaultTimePeriod,
        priceInvoked := true, captionBuilt := true, errorLogged := false } := by
    simp [handle_manual_heatmap, hcap, hphoto, htext, hprice, priceTextOf, buildCaption]
  refine ⟨hm, hh, by rw [hm]; rfl, by rw [hh]; rfl,
    hasPriceLine_base monthlyTitle (by decide) env.today,
    hasPriceLine_base manualTitle (by decide) env.today⟩

/-- C7 witness: the theorem evaluated on the environment where capture
succeeds, the price request raises, and the transports work. -/
theorem c7_absent_price_still_delivers_witness :
    (capture_coinglass_heatmap envDeliverNoPrice.cap defaultTimePeriod).result =
      some "btc_liquidation_heatmap_20261012_1_month.png" ∧
    get_bitcoin_price envDeliverNoPrice.fetch = none ∧
    envDeliverNoPrice.photoOk = true ∧
    envDeliverNoPrice.sendTextOk = true ∧
    countPhotos (send_Monthly_heatmap envDeliverNoPrice).outs = 1 :=
  ⟨by decide, rfl, rfl, rfl,
    (c7_absent_price_still_delivers envDeliverNoPrice msgValid
      "btc_liquidation_heatmap_20261012_1_month.png"
      (by decide) rfl rfl rfl).2.2.1⟩

/-- C8 counterexample: main registers exactly one schedule, the daily job
at the fixed wall clock time 08:00; no interval-of-hours schedule is
registered at all, although the immediate startup delivery before the
scheduler loop does exist. -/
theorem c8_counterexample :
    registeredSchedules = [ScheduleSpec.dailyAt "08:00"] ∧
    registeredSchedules.any isHourlyInterval = false ∧
    (mainActs.takeWhile (fun a => !isLoopAct a)).countP isRunAct = 1 :=
  ⟨by decide, by decide, by decide⟩

/-- C8 (amended): at startup main registers the daily 08:00 job, then runs
exactly one immediate scheduled delivery before entering the scheduler
loop; every scheduled delivery invokes the acquirer with the hard coded
default TimePeriod "1 month" and addresses only the broadcast channel. -/
theorem c8_startup_schedule :
    mainActs = [MainAct.register (ScheduleSpec.dailyAt "08:00"),
                MainAct.runScheduledDelivery, MainAct.startPollingThread,
                MainAct.enterSchedulerLoop] ∧
    (mainActs.takeWhile (fun a => !isLoopAct a)).countP isRunAct = 1 ∧
    registeredSchedules = [ScheduleSpec.dailyAt "08:00"] ∧
    (∀ env : BotEnv,
      (send_Monthly_heatmap env).acquirerPeriod = some defaultTimePeriod ∧
      ∀ o ∈ (send_Monthly_heatmap env).outs, outDest o = Dest.channel) := by
  refine ⟨rfl, by decide, by decide, ?_⟩
  intro env
  cases hcr : (capture_coinglass_heatmap env.cap defaultTimePeriod).result <;>
    by_cases hp : env.photoOk <;> by_cases ht : env.sendTextOk <;>
    simp [send_Monthly_heatmap, hcr, hp, ht, outDest]

/-- C8 witness: the amended theorem evaluated on a concrete delivery
environment. -/
theorem c8_startup_schedule_witness :
    registeredSchedules = [ScheduleSpec.dailyAt "08:00"] ∧
    (send_Monthly_heatmap envAcqFail).acquirerPeriod = some defaultTimePeriod :=
  ⟨c8_startup_schedule.2.2.1, (c8_startup_schedule.2.2.2 envAcqFail).1⟩

/-- C5 counterexample: for the allow-listed TimePeriod "1 month" the
interactive path delivers a photo whose caption is the fixed title with a
day precision date: it contains no month label in any style, no UTC
designation, and no minute precision time, contradicting the claim. -/
theorem c5_counterexample :
    specTimePeriods.contains "1 month" = true ∧
    specTrailingArg msgValid.text = "1 month" ∧
    (handle_manual_heatmap envDeliverNoPrice msgValid).outs =
      [Out.text (Dest.chat 42) ackText,
       Out.photo (Dest.chat 42) "btc_liquidation_heatmap_20261012_1_month.png"
         "📊 Bitcoin Liquidation Heatmap - 2026-10-12\n"] ∧
    strContains "📊 Bitcoin Liquidation Heatmap - 2026-10-12\n" "onth" = false ∧
    strContains "📊 Bitcoin Liquidation Heatmap - 2026-10-12\n" "1M" = false ∧
    strContains "📊 Bitcoin Liquidation Heatmap - 2026-10-12\n" "UTC" = false ∧
    strContains "📊 Bitcoin Liquidation Heatmap - 2026-10-12\n" ":" = false :=
  ⟨by decide, by decide, by decide, by decide, by decide, by decide, by decide⟩

/-- C5 (amended): every caption of a delivered photo, on either path, is
independent of the requested TimePeriod: it carries a price line exactly
when Price Lookup returned a price, and when no price is present it is
exactly the fixed title ("Monthly Bitcoin Liquidation Heatmap" on the
scheduled path, "Bitcoin Liquidation Heatmap" on the interactive one)
followed by the day precision date, with no TimePeriod label, no UTC
designation and no minute precision timestamp in it. -/
theorem c5_caption_shape (env : BotEnv) (msg : Msg) (dst : Dest) (f cap : String)
    (hmem : Out.photo dst f cap ∈ (send_Monthly_heatmap env).outs ∨
            Out.photo dst f cap ∈ (handle_manual_heatmap env msg).outs) :
    hasPriceLine cap = (get_bitcoin_price env.fetch).isSome ∧
    (get_bitcoin_price env.fetch = none →
      cap = "📊 " ++ monthlyTitle ++ " - " ++ dateDash env.today ++ "\n" ∨
      cap = "📊 " ++ manualTitle ++ " - " ++ dateDash env.today ++ "\n") := by
  have hcap : cap = buildCaption monthlyTitle (dateDash env.today)
        (priceTextOf (get_bitcoin_price env.fetch)) ∨
      cap = buildCaption manualTitle (dateDash env.today)
        (priceTextOf (get_bitcoin_price env.fetch)) := by
    rcases hmem with hm | hm
    · cases hcr : (capture_coinglass_heatmap env.cap defaultTimePeriod).result with
      | none =>
        by_cases ht : env.sendTextOk <;> simp [send_Monthly_heatmap, hcr, ht] at hm
      | some f2 =>
        by_cases hp : env.photoOk
        · simp [send_Monthly_heatmap, hcr, hp] at hm
          exact Or.inl hm.2.2
        · by_cases ht : env.sendTextOk <;>
            simp [send_Monthly_heatmap, hcr, hp, ht] at hm
    · by_cases ht : env.sendTextOk
      · cases hcr : (capture_coinglass_heatmap env.cap defaultTimePeriod).result with
        | none => simp [handle_manual_heatmap, hcr, ht] at hm
        | some f2 =>
          by_cases hp : env.photoOk
          · simp [handle_manual_heatmap, hcr, ht, hp] at hm
            exact Or.inr hm.2.2
          · simp [handle_manual_heatmap, hcr, ht, hp] at hm
      · simp [handle_manual_heatmap, ht] at hm
  constructor
  · cases hg : get_bitcoin_price env.fetch with
    | none =>
      have hpt : priceTextOf (get_bitcoin_price env.fetch) = "" := by
        rw [hg]
        rfl
      rcases hcap with h | h <;> rw [h, hpt, buildCaption_nop]
      · rw [hasPriceLine_base monthlyTitle (by decide) env.today]
        rfl
      · rw [hasPriceLine_base manualTitle (by decide) env.today]
        rfl
    | some s =>
      obtain ⟨c, _, hsc⟩ := gbp_some env.fetch s hg
      have hsne : ¬ s = "" := hsc ▸ formatUsd_ne_empty c
      have hpt : priceTextOf (get_bitcoin_price env.fetch) = "BTC Price: " ++ s := by
        rw [hg]
        exact priceTextOf_some s hsne
      have hbne : ¬ ("BTC Price: " ++ s) = "" :=
        append_left_ne_empty "BTC Price: " s (by decide)
      rcases hcap with h | h <;> rw [h, hpt, hasPriceLine_capPos _ _ _ hbne] <;> rfl
  · intro hg
    have hpt : priceTextOf (get_bitcoin_price env.fetch) = "" := by
      rw [hg]
      rfl
    rcases hcap with h | h
    · left
      rw [h, hpt, buildCaption_nop]
    · right
      rw [h, hpt, buildCaption_nop]

/-- C5 witness: the amended theorem evaluated on the delivered scheduled
photo of the concrete no-price environment. -/
theorem c5_caption_shape_witness :
    Out.photo Dest.channel "btc_liquidation_heatmap_20261012_1_month.png"
        "📊 Monthly Bitcoin Liquidation Heatmap - 2026-10-12\n" ∈
      (send_Monthly_heatmap envDeliverNoPrice).outs ∧
    hasPriceLine "📊 Monthly Bitcoin Liquidation Heatmap - 2026-10-12\n" =
      (get_bitcoin_price envDeliverNoPrice.fetch).isSome :=
  ⟨by decide,
    (c5_caption_shape envDeliverNoPrice msgValid Dest.channel
      "btc_liquidation_heatmap_20261012_1_month.png"
      "📊 Monthly Bitcoin Liquidation Heatmap - 2026-10-12\n"
      (Or.inl (by decide))).1⟩
